import Mathlib

/-!
Verification of the csv2c device-table generator (src/ec2drv/csv2c.py).

The script is embedded shallowly.  The CSV input is taken after parsing:
a list of rows, each row the list of its field strings (the csv reader
yields an empty list for a blank line).  The generator is then a pure
function from the input-path string and the rows to the text written to
the output file, paired with the Python error that aborted the run, if
any.  Literal braces in the generated C text are written with the
escapes \x7b and \x7d.
-/

namespace Csv2c

set_option maxRecDepth 2048

/-- A parsed CSV row: the list of its fields. -/
abbrev Row := List String

/-- The errors the Python interpreter can raise while this script runs:
an IndexError from indexing a too-short list or string, and a TypeError
from passing None where a string is required. -/
inductive PyErr where
  | indexError
  | typeError
  deriving DecidableEq, Repr

/-- The banner comment block written at the top of the output file.  It
names the input path as the generation source; the border lines have 95
and 94 slashes respectively, exactly as in the source. -/
def banner (infile : String) : String :=
  "///////////////////////////////////////////////////////////////////////////////////////////////\n"
  ++ "//\n"
  ++ "//\t\t**** DO NOT EDIT ***\n"
  ++ "// Automatically generated from " ++ infile ++ "\n"
  ++ "// You should edit the ods file used to generate the above csv file for perminant changes\n"
  ++ "//\n"
  ++ "//////////////////////////////////////////////////////////////////////////////////////////////\n\n"

/-- Everything written before the row loop runs: the banner, the include
line and the array-declaration header line. -/
def headerText (infile : String) : String :=
  banner infile ++ "#include \"devices.h\"\n" ++ "DEVICE devices[] =\n"

/-- Everything written after the row loop: the sentinel record line
(which also carries the closing brace of the array initializer) and the
statement terminator line. -/
def footerText : String :=
  ",\n\t\x7b0\x7d\x7d\n" ++ ";\n"

/-- The first field of a row (the device-name column). -/
def firstField (row : Row) : String := row.getD 0 ""

/-- The exclusion test of the script: the first character of the first
field is the marker symbol. -/
def excluded (row : Row) : Bool :=
  match (firstField row).data with
  | c :: _ => c = '#'
  | [] => false

/-- A row the script can process without an indexing fault: at least 23
fields, and a non-empty first field. -/
def wellFormed (row : Row) : Prop :=
  23 ≤ row.length ∧ firstField row ≠ ""

instance (row : Row) : Decidable (wellFormed row) := by
  unfold wellFormed
  infer_instance

/-- The text that opens the i-th emitted record block.  The first block
carries two opening braces on one line (the array-opening brace merged
with the record-opening brace); every later block is preceded by a comma
and a newline. -/
def opener (i : Nat) : String :=
  if i = 0 then "\t\x7b\x7b\n" else ",\n\t\x7b\n"

/-- One iteration of the row loop of `main`, transcribed write for write
from the source.  `out` is the text written so far and `i` the count of
records emitted so far; the result is the updated pair, or the text
already written together with the Python error when the iteration
aborts.  The accesses that can fail are performed in source order:
row[0] first, then row[0][0], then row[22] (written before the optional
comment line but after the block opener).  Once row[22] succeeds the row
has at least 23 fields, so the remaining accesses (indices 1-21, and 22
again for the final data line) cannot fail and are taken with getD. -/
def processRow (out : String) (i : Nat) (row : Row) :
    Except (String × PyErr) (String × Nat) :=
  match row.get? 0 with
  | none => .error (out, .indexError)
  | some f0 =>
    match f0.data with
    | [] => .error (out, .indexError)
    | c :: _ =>
      if c = '#' then
        .ok (out, i)
      else
        let o1 := out ++ (if i = 0 then "\t\x7b\x7b\n" else ",\n\t\x7b\n")
        match row.get? 22 with
        | none => .error (o1, .indexError)
        | some f22 =>
          let o2 := o1 ++ (if f22 ≠ "" then "\t\t// " ++ f22 ++ "\n" else "")
          let o3 := o2 ++ "\t\t\"" ++ f0 ++ "\",\t// Device Name\n"
          let o4 := o3 ++ "\t\t" ++ row.getD 1 "" ++ ",\t\t\t// Device id (Family)\n"
          let o5 := o4 ++ "\t\t" ++ row.getD 2 "" ++ ",\t\t\t// Device unique id\n"
          let o6 := o5 ++ "\t\t" ++ row.getD 3 "" ++ ",\t\t\t// Device revision (-1 = any match\n"
          let o7 := o6 ++ "\t\t" ++ row.getD 5 "" ++ ",\t\t\t// Flash Size (Marketing number)\n"
          let o8 := o7 ++ "\t\t" ++ row.getD 6 "" ++ ",\t\t\t// Flash Sector Size\n"
          let o9 := o8 ++ "\t\t" ++ row.getD 7 "" ++ ",\t\t\t// XRAM Size\n"
          let o10 := o9 ++ "\t\t" ++ row.getD 8 "" ++ ",\t\t\t// Has External Bus\n"
          let o11 := o10 ++ "\t\t" ++ row.getD 9 "" ++ ",\t\t\t// Tested by ec2drv developers\n"
          let o12 := o11 ++ "\t\t" ++ row.getD 10 "" ++ ",\t\t\t// Flash lock type\n"
          let o13 := o12 ++ "\t\t" ++ row.getD 11 "" ++ ",\t\t\t// Read lock\n"
          let o14 := o13 ++ "\t\t" ++ row.getD 12 "" ++ ",\t\t\t// Write lock\n"
          let o15 := o14 ++ "\t\t" ++ row.getD 13 "" ++ ",\t\t\t// Single lock\n"
          let o16 := o15 ++ "\t\t" ++ row.getD 14 "" ++ ",\t\t\t// Reserved Flash bottom addr\n"
          let o17 := o16 ++ "\t\t" ++ row.getD 15 "" ++ ",\t\t\t// Reserved Flash top addr\n"
          let o18 := o17 ++ "\t\t" ++ row.getD 16 "" ++ ",\t\t\t// Has flash scratchpad (SFLE)\n"
          let o19 := o18 ++ "\t\t" ++ row.getD 17 "" ++ ",\t\t\t// Scratch start addr (SFLE=1)\n"
          let o20 := o19 ++ "\t\t" ++ row.getD 18 "" ++ ",\t\t\t// Scratchpad length (bytes)\n"
          let o21 := o20 ++ "\t\t" ++ row.getD 19 "" ++ ",\t\t\t// Scratchpad sector size (bytes)\n"
          let o22 := o21 ++ "\t\t" ++ row.getD 20 "" ++ ",\t\t\t// Has Pages SFR registers\n"
          let o23 := o22 ++ "\t\t" ++ row.getD 21 "" ++ ",\t\t\t// USB FIFO size\n"
          let o24 := o23 ++ "\t\t" ++ f22 ++ ",\t\t\t// Debug Mode (JTAG /C2)\n"
          let o25 := o24 ++ "\t\x7d"
          .ok (o25, i + 1)

/-- The row loop: fold `processRow` over the rows, stopping at the first
error. -/
def processRows : String → Nat → List Row → Except (String × PyErr) (String × Nat)
  | out, i, [] => .ok (out, i)
  | out, i, row :: rest =>
    match processRow out i row with
    | .error e => .error e
    | .ok (out2, i2) => processRows out2 i2 rest

/-- The whole generation run for a given input path and parsed rows:
the text written to the output file, and the Python error that aborted
the run, if any.  On an abort the footer is never written. -/
def csv2c (infile : String) (rows : List Row) : String × Option PyErr :=
  match processRows (headerText infile) 0 rows with
  | .ok (out, _) => (out ++ footerText, none)
  | .error (out, e) => (out, some e)

/-- The observable result of one invocation of the script with explicit
option values: whether the output file was opened (and hence truncated),
the text written to it, and the aborting error, if any. -/
structure RunResult where
  outOpened : Bool
  content : String
  error : Option PyErr
  deriving DecidableEq, Repr

/-- The full `main` with the two option values as the argument parser
leaves them: optparse does not enforce required options, so a missing
option arrives as None.  open(None, "wb") raises a TypeError before any
file exists; when only the input option is missing, the output file is
opened and truncated first and then the banner concatenation with None
raises a TypeError before anything is written. -/
def csv2cMain (infileOpt outfileOpt : Option String) (rows : List Row) : RunResult :=
  match outfileOpt with
  | none => ⟨false, "", some .typeError⟩
  | some _ =>
    match infileOpt with
    | none => ⟨true, "", some .typeError⟩
    | some infile =>
      match csv2c infile rows with
      | (out, err) => ⟨true, out, err⟩

/-- One run of the tool against an output file that already holds
`prev`: mode "wb" truncates the file, so the previous content is
discarded and the new content starts from the empty string. -/
def runTool (infile : String) (rows : List Row) (prev : String) : String :=
  match prev with
  | _ => "" ++ (csv2c infile rows).1

/-- One data line of a record block: two tabs, the literal field value,
then the fixed tail holding the comma, three tabs and the inline comment
that documents the attribute. -/
def dataLine (v tail : String) : String :=
  "\t\t" ++ v ++ tail

/-- The table of the 21 data lines in emission order: the field index
each line takes its value from, and the fixed line tail with the inline
comment.  Index 4 appears nowhere; index 22 (the free-text comment
field) reappears as the final data line. -/
def deviceFields : List (Nat × String) :=
  [(1, ",\t\t\t// Device id (Family)\n"),
   (2, ",\t\t\t// Device unique id\n"),
   (3, ",\t\t\t// Device revision (-1 = any match\n"),
   (5, ",\t\t\t// Flash Size (Marketing number)\n"),
   (6, ",\t\t\t// Flash Sector Size\n"),
   (7, ",\t\t\t// XRAM Size\n"),
   (8, ",\t\t\t// Has External Bus\n"),
   (9, ",\t\t\t// Tested by ec2drv developers\n"),
   (10, ",\t\t\t// Flash lock type\n"),
   (11, ",\t\t\t// Read lock\n"),
   (12, ",\t\t\t// Write lock\n"),
   (13, ",\t\t\t// Single lock\n"),
   (14, ",\t\t\t// Reserved Flash bottom addr\n"),
   (15, ",\t\t\t// Reserved Flash top addr\n"),
   (16, ",\t\t\t// Has flash scratchpad (SFLE)\n"),
   (17, ",\t\t\t// Scratch start addr (SFLE=1)\n"),
   (18, ",\t\t\t// Scratchpad length (bytes)\n"),
   (19, ",\t\t\t// Scratchpad sector size (bytes)\n"),
   (20, ",\t\t\t// Has Pages SFR registers\n"),
   (21, ",\t\t\t// USB FIFO size\n"),
   (22, ",\t\t\t// Debug Mode (JTAG /C2)\n")]

/-- The name line of a record block. -/
def nameLine (row : Row) : String :=
  "\t\t\"" ++ firstField row ++ "\",\t// Device Name\n"

/-- The optional leading comment of a record block: empty when field 22
is empty, otherwise one comment line holding that field's text. -/
def commentPart (row : Row) : String :=
  if row.getD 22 "" ≠ "" then "\t\t// " ++ row.getD 22 "" ++ "\n" else ""

/-- The 21 data lines of a record block, joined. -/
def dataPart (row : Row) : String :=
  String.join (deviceFields.map fun p => dataLine (row.getD p.1 "") p.2)

/-- Everything a record block holds after its opener: the optional
comment, the name line, the 21 data lines and the closing brace. -/
def rowBody (row : Row) : String :=
  commentPart row ++ nameLine row ++ dataPart row ++ "\t\x7d"

/-- The record blocks emitted for a list of surviving rows, the first
one counted from position `i`. -/
def blockStrings : Nat → List Row → List String
  | _, [] => []
  | i, r :: rs => (opener i ++ rowBody r) :: blockStrings (i + 1) rs

/-- The rows that survive the exclusion test. -/
def surviving (rows : List Row) : List Row :=
  rows.filter fun r => !excluded r

/-- The blocks after the first one, each preceded by a comma and a
newline. -/
def tailBlocks (rs : List Row) : String :=
  String.join (rs.map fun r => ",\n\t\x7b\n" ++ rowBody r)

/-- The text the row loop appends for a single row when started with
empty output, exposing one record block (or the partial text written
before an abort). -/
def rowOutput (i : Nat) (row : Row) : String :=
  match processRow "" i row with
  | .ok (s, _) => s
  | .error (s, _) => s

/-- Whether the first list is a prefix of the second. -/
def isPrefixList : List Char → List Char → Bool
  | [], _ => true
  | _ :: _, [] => false
  | a :: p, b :: s => a == b && isPrefixList p s

/-- Whether the first list occurs as a contiguous run inside the
second. -/
def containsSub (p : List Char) (s : List Char) : Bool :=
  match s with
  | [] => isPrefixList p []
  | _ :: t => isPrefixList p s || containsSub p t

/-- Whether the first list is a suffix of the second. -/
def isSuffixList (p s : List Char) : Bool :=
  isPrefixList p.reverse s.reverse

/-- The newline-separated lines of a character list, carried through an
accumulator. -/
def linesAux (cur : List Char) (acc : List (List Char)) : List Char → List (List Char)
  | [] => (cur.reverse :: acc).reverse
  | c :: rest =>
    if c = '\n' then linesAux [] (cur.reverse :: acc) rest
    else linesAux (c :: cur) acc rest

/-- Split a character list into its newline-separated lines. -/
def splitLines (cs : List Char) : List (List Char) :=
  linesAux [] [] cs

/-- Whether a line consists of a single opening brace, whitespace
aside. -/
def isLoneOpenBrace (l : List Char) : Bool :=
  (l.filter fun c => !(c == ' ' || c == '\t')) == ['\x7b']

/-- The number of occurrences of a character in a string. -/
def countChar (c : Char) (s : String) : Nat :=
  s.data.count c

/-- A necessary condition for the output to be a syntactically complete
C fragment: its opening and closing braces balance in number. -/
def braceBalanced (s : String) : Bool :=
  countChar '\x7b' s == countChar '\x7d' s

/-- The fixed text of the output that precedes the input-path string:
the banner up to and including the generated-from marker. -/
def hfPre : String :=
  "///////////////////////////////////////////////////////////////////////////////////////////////\n"
  ++ "//\n"
  ++ "//\t\t**** DO NOT EDIT ***\n"
  ++ "// Automatically generated from "

/-- The fixed text of a zero-record output that follows the input-path
string: the rest of the banner, the include line, the declaration
header, the sentinel line and the terminator. -/
def hfPost : String :=
  "\n"
  ++ "// You should edit the ods file used to generate the above csv file for perminant changes\n"
  ++ "//\n"
  ++ "//////////////////////////////////////////////////////////////////////////////////////////////\n\n"
  ++ "#include \"devices.h\"\n"
  ++ "DEVICE devices[] =\n"
  ++ ",\n\t\x7b0\x7d\x7d\n"
  ++ ";\n"

/-- A concrete non-excluded 23-field row with pairwise distinct field
values, used to evaluate the record-block layout on a sample input. -/
def crow : Row :=
  ["Name0", "V1", "V2", "V3", "V4", "V5", "V6", "V7", "V8", "V9", "V10",
   "V11", "V12", "V13", "V14", "V15", "V16", "V17", "V18", "V19", "V20", "V21", "V22"]

/-- A concrete non-excluded 23-field row whose field 22 (the free-text
comment column) is empty. -/
def crowNC : Row :=
  ["NC0", "W1", "W2", "W3", "W4", "W5", "W6", "W7", "W8", "W9", "W10",
   "W11", "W12", "W13", "W14", "W15", "W16", "W17", "W18", "W19", "W20", "W21", ""]

/-- A concrete excluded 23-field row: its first field begins with the
exclusion marker. -/
def hashRow : Row :=
  ["#skip", "X1", "X2", "X3", "X4", "X5", "X6", "X7", "X8", "X9", "X10",
   "X11", "X12", "X13", "X14", "X15", "X16", "X17", "X18", "X19", "X20", "X21", "X22"]

/-- A concrete non-excluded row with fewer than 23 fields. -/
def shortRow : Row := ["S0", "1"]

instance wellFormedDec : DecidablePred wellFormed :=
  fun row => decidable_of_iff (23 ≤ row.length ∧ firstField row ≠ "") Iff.rfl

theorem strJoin_cons (s : String) (l : List String) :
    String.join (s :: l) = s ++ String.join l := by
  apply String.ext
  simp [String.data_join, String.data_append]

theorem processRow_skip (out : String) (i : Nat) (row : Row)
    (hne : firstField row ≠ "") (hx : excluded row = true) :
    processRow out i row = .ok (out, i) := by
  cases row with
  | nil => exact absurd rfl hne
  | cons f0 rest =>
    obtain ⟨cs⟩ := f0
    cases cs with
    | nil => exact absurd rfl hne
    | cons c cs2 =>
      have hc : c = '#' := by simpa [excluded, firstField] using hx
      simp [processRow, hc]

theorem processRow_emit (out : String) (i : Nat) (row : Row)
    (hw : wellFormed row) (hx : excluded row = false) :
    processRow out i row = .ok (out ++ opener i ++ rowBody row, i + 1) := by
  obtain ⟨hlen, hne⟩ := hw
  cases row with
  | nil => simp at hlen
  | cons f0 rest =>
    have h22 : 22 < (f0 :: rest).length := by
      simp only [List.length_cons] at hlen ⊢
      omega
    have e22 : (f0 :: rest).get? 22 = some ((f0 :: rest).get ⟨22, h22⟩) :=
      List.get?_eq_get h22
    have egd : (f0 :: rest).getD 22 "" = (f0 :: rest).get ⟨22, h22⟩ := by
      rw [List.getD_eq_get? (f0 :: rest) 22 "", e22]
      rfl
    obtain ⟨cs⟩ := f0
    cases cs with
    | nil => exact absurd rfl hne
    | cons c cs2 =>
      have hc : ¬ c = '#' := by simpa [excluded, firstField] using hx
      simp only [processRow, List.get?_cons_zero, hc, if_false, e22, opener, rowBody,
        commentPart, nameLine, dataPart, deviceFields, dataLine, firstField, String.join,
        List.map, List.foldl, egd, List.getD_cons_zero]
      simp only [Except.ok.injEq, Prod.mk.injEq, String.append_assoc, String.empty_append,
        String.append_empty, and_true, true_and, and_self]

theorem processRows_ok (rows : List Row) :
    ∀ (out : String) (i : Nat), (∀ r ∈ rows, wellFormed r) →
      processRows out i rows =
        .ok (out ++ String.join (blockStrings i (surviving rows)),
          i + (surviving rows).length) := by
  induction rows with
  | nil =>
    intro out i _
    simp [processRows, surviving, blockStrings, String.join, String.append_empty]
  | cons r rs ih =>
    intro out i h
    have hr : wellFormed r := h r (List.mem_cons_self r rs)
    have hrest : ∀ x ∈ rs, wellFormed x := fun x hx => h x (List.mem_cons_of_mem r hx)
    by_cases hx : excluded r = true
    · have hstep : processRows out i (r :: rs) = processRows out i rs := by
        simp [processRows, processRow_skip out i r hr.2 hx]
      have hsurv : surviving (r :: rs) = surviving rs := by
        simp [surviving, hx]
      rw [hstep, hsurv]
      exact ih out i hrest
    · have hx2 : excluded r = false := by
        cases hxe : excluded r
        · rfl
        · exact absurd hxe hx
      have hstep : processRows out i (r :: rs) =
          processRows (out ++ opener i ++ rowBody r) (i + 1) rs := by
        simp [processRows, processRow_emit out i r hr hx2]
      have hsurv : surviving (r :: rs) = r :: surviving rs := by
        simp [surviving, hx2]
      rw [hstep, hsurv, ih (out ++ opener i ++ rowBody r) (i + 1) hrest]
      simp only [blockStrings, strJoin_cons, List.length_cons, Except.ok.injEq, Prod.mk.injEq]
      constructor
      · simp only [String.append_assoc]
      · omega

theorem blockStrings_length (l : List Row) : ∀ i, (blockStrings i l).length = l.length := by
  induction l with
  | nil => intro i; rfl
  | cons r rs ih =>
    intro i
    simp [blockStrings, ih]

theorem join_blockStrings_tail (l : List Row) :
    ∀ i, String.join (blockStrings (i + 1) l) = tailBlocks l := by
  induction l with
  | nil => intro i; rfl
  | cons r rs ih =>
    intro i
    simp only [blockStrings, strJoin_cons, ih (i + 1)]
    simp [tailBlocks, opener, strJoin_cons]

theorem countChar_append (c : Char) (s t : String) :
    countChar c (s ++ t) = countChar c s + countChar c t := by
  simp [countChar, String.data_append, List.count_append]

theorem header_footer_split (infile : String) :
    headerText infile ++ footerText = hfPre ++ (infile ++ hfPost) := by
  simp only [headerText, banner, footerText, hfPre, hfPost, String.append_assoc]

theorem excluded_eq_hash_test (row : Row) (hne : firstField row ≠ "") :
    excluded row = decide (List.IsPrefix ['#'] (firstField row).data) := by
  cases hf : (firstField row).data with
  | nil =>
    have : firstField row = "" := String.ext (by rw [hf])
    exact absurd this hne
  | cons c cs =>
    by_cases hc : c = '#'
    · simp [excluded, hf, hc, List.cons_prefix_cons, List.nil_prefix]
    · simp [excluded, hf, hc, List.cons_prefix_cons, eq_comm]

/-- C1 (amended).  For every non-excluded well-formed row, the emitted
record block is the opener, the optional leading comment, the name line,
and then exactly 21 data lines whose values come from field indices
1, 2, 3, 5, 6, ..., 22 in that fixed order — index 4 is never emitted,
and field 22 is used both for the optional leading comment and re-emitted
as the final data line (Debug Mode) — followed by the closing brace. -/
theorem record_block_field_indices (out : String) (i : Nat) (row : Row)
    (hw : wellFormed row) (hx : excluded row = false) :
    processRow out i row =
      .ok (out ++ opener i ++
        (commentPart row ++ nameLine row ++ dataPart row ++ "\t\x7d"), i + 1)
    ∧ deviceFields.map Prod.fst =
        [1, 2, 3, 5, 6, 7, 8, 9, 10, 11, 12, 13, 14, 15, 16, 17, 18, 19, 20, 21, 22]
    ∧ (deviceFields.map Prod.fst).length = 21 := by
  refine ⟨?_, by decide, by decide⟩
  rw [processRow_emit out i row hw hx]
  simp only [rowBody]

/-- Witness for C1: the amended layout theorem evaluated on the concrete
row `crow`. -/
theorem record_block_field_indices_witness :
    wellFormed crow ∧ excluded crow = false ∧
    (processRow "" 0 crow =
        .ok ("" ++ opener 0 ++
          (commentPart crow ++ nameLine crow ++ dataPart crow ++ "\t\x7d"), 0 + 1)
      ∧ deviceFields.map Prod.fst =
          [1, 2, 3, 5, 6, 7, 8, 9, 10, 11, 12, 13, 14, 15, 16, 17, 18, 19, 20, 21, 22]
      ∧ (deviceFields.map Prod.fst).length = 21) :=
  ⟨by decide, by decide, record_block_field_indices "" 0 crow (by decide) (by decide)⟩

/-- Counterexample to C1 as stated: on the concrete row `crow` (whose
field 4 is "V4" and whose field 22 is "V22"), the emitted block contains
the value of field 22 as a data line (the Debug Mode line), and the
value of field 4 appears nowhere in the block, contradicting the claim
that the data lines are exactly fields with indices 1 through 21 and
that field 22 is never re-emitted as a data line. -/
theorem debug_line_reemitted :
    containsSub ("\t\tV22,\t\t\t// Debug Mode (JTAG /C2)\n").data (rowOutput 0 crow).data = true
    ∧ containsSub ("V4").data (rowOutput 0 crow).data = false := by
  decide

/-- C2 (amended).  The first emitted record block is opened by a line
holding a tab and two opening braces (the array-opening brace merged
with the record-opening brace), not by a single brace on its own line;
every subsequent block is preceded by a comma and newline and then
opened by a tab and a single brace. -/
theorem record_openers (infile : String) (rows : List Row) (s : Row) (rest : List Row)
    (h : ∀ r ∈ rows, wellFormed r) (hs : surviving rows = s :: rest) :
    csv2c infile rows =
      (headerText infile ++ ("\t\x7b\x7b\n" ++ rowBody s ++ tailBlocks rest) ++ footerText,
        none) := by
  have hmain := processRows_ok rows (headerText infile) 0 h
  rw [hs] at hmain
  simp only [blockStrings, strJoin_cons, join_blockStrings_tail rest 0] at hmain
  simp [csv2c, hmain, opener, String.append_assoc]

/-- Witness for C2: the amended opener theorem evaluated on a concrete
two-row input. -/
theorem record_openers_witness :
    (∀ r ∈ [crow, crowNC], wellFormed r) ∧ surviving [crow, crowNC] = crow :: [crowNC] ∧
    csv2c "devices.csv" [crow, crowNC] =
      (headerText "devices.csv" ++ ("\t\x7b\x7b\n" ++ rowBody crow ++ tailBlocks [crowNC])
        ++ footerText, none) :=
  ⟨by decide, by decide,
    record_openers "devices.csv" [crow, crowNC] crow [crowNC] (by decide) (by decide)⟩

set_option maxRecDepth 8192 in
/-- Counterexample to C2 as stated: in the concrete output for one
surviving row, no line consists of a single opening brace (whitespace
aside) — the first record is opened by the two-brace line instead. -/
theorem no_lone_open_brace_line :
    ((splitLines (csv2c "in.csv" [crow]).1.data).all fun l => !isLoneOpenBrace l) = true
    ∧ containsSub ("\t\x7b\x7b\n").data (csv2c "in.csv" [crow]).1.data = true := by
  decide

/-- C3 (amended).  After the last surviving record the program writes
",\n\t" followed by the sentinel "brace 0 brace" plus the extra closing
brace of the array and a newline, then the terminator line ";\n": for
every well-formed input the output ends with that exact footer text. -/
theorem run_suffix_sentinel (infile : String) (rows : List Row)
    (h : ∀ r ∈ rows, wellFormed r) :
    footerText = ",\n\t\x7b0\x7d\x7d\n;\n"
    ∧ List.IsSuffix footerText.data (csv2c infile rows).1.data := by
  refine ⟨rfl, ?_⟩
  have hmain := processRows_ok rows (headerText infile) 0 h
  simp only [csv2c, hmain]
  exact ⟨(headerText infile ++ String.join (blockStrings 0 (surviving rows))).data,
    (String.data_append _ _).symm⟩

/-- Witness for C3: the amended footer theorem evaluated on a concrete
one-row input. -/
theorem run_suffix_sentinel_witness :
    (∀ r ∈ [crow], wellFormed r) ∧
    (footerText = ",\n\t\x7b0\x7d\x7d\n;\n"
      ∧ List.IsSuffix footerText.data (csv2c "devices.csv" [crow]).1.data) :=
  ⟨by decide, run_suffix_sentinel "devices.csv" [crow] (by decide)⟩

/-- Counterexample to C3 as stated: the zero-row output ends with the
characters "brace 0 brace brace newline semicolon newline", and the
sentinel text "brace 0 brace" is never followed directly by the
terminator, with or without an intervening newline — an extra closing
brace stands between them. -/
theorem sentinel_not_directly_terminated :
    isSuffixList ("\x7b0\x7d\x7d\n;\n").data (csv2c "devices.csv" []).1.data = true
    ∧ containsSub ("\x7b0\x7d;").data (csv2c "devices.csv" []).1.data = false
    ∧ containsSub ("\x7b0\x7d\n;").data (csv2c "devices.csv" []).1.data = false := by
  decide

/-- C4 (confirmed).  For every well-formed input, the run completes
without error, the output decomposes into the header, one block per
surviving row, and the footer, and the number of emitted record blocks
equals the number of input rows whose first field does not start with
the exclusion marker. -/
theorem record_count_eq_unexcluded (infile : String) (rows : List Row)
    (h : ∀ r ∈ rows, wellFormed r) :
    csv2c infile rows =
      (headerText infile ++ String.join (blockStrings 0 (surviving rows)) ++ footerText,
        none)
    ∧ (blockStrings 0 (surviving rows)).length =
        (rows.filter fun r => !decide (List.IsPrefix ['#'] (firstField r).data)).length := by
  have hmain := processRows_ok rows (headerText infile) 0 h
  constructor
  · simp [csv2c, hmain, String.append_assoc]
  · rw [blockStrings_length]
    unfold surviving
    congr 1
    apply List.filter_congr
    intro x hx
    rw [excluded_eq_hash_test x (h x hx).2]

/-- Witness for C4: the counting theorem evaluated on a concrete input
holding one surviving and one excluded row. -/
theorem record_count_eq_unexcluded_witness :
    (∀ r ∈ [crow, hashRow], wellFormed r) ∧
    (csv2c "devices.csv" [crow, hashRow] =
        (headerText "devices.csv"
          ++ String.join (blockStrings 0 (surviving [crow, hashRow])) ++ footerText, none)
      ∧ (blockStrings 0 (surviving [crow, hashRow])).length =
          ([crow, hashRow].filter fun r =>
            !decide (List.IsPrefix ['#'] (firstField r).data)).length) :=
  ⟨by decide, record_count_eq_unexcluded "devices.csv" [crow, hashRow] (by decide)⟩

/-- C5 (amended).  An input whose rows are all excluded (or empty)
produces the header followed immediately by the footer; the resulting
document is not a syntactically complete array initializer, since its
opening and closing braces do not balance — the array-opening brace is
only ever written together with the first record. -/
theorem all_excluded_run_shape (infile : String) (rows : List Row)
    (h : ∀ r ∈ rows, wellFormed r ∧ excluded r = true) :
    csv2c infile rows = (headerText infile ++ footerText, none)
    ∧ (countChar '\x7b' infile = 0 → countChar '\x7d' infile = 0 →
        braceBalanced (headerText infile ++ footerText) = false) := by
  have hsurv : surviving rows = [] := by
    simp only [surviving, List.filter_eq_nil_iff]
    intro a ha
    simp [(h a ha).2]
  have hmain := processRows_ok rows (headerText infile) 0 (fun r hr => (h r hr).1)
  rw [hsurv] at hmain
  constructor
  · simp [csv2c, hmain, blockStrings, String.join, String.append_empty]
  · intro hb1 hb2
    rw [header_footer_split infile]
    simp only [braceBalanced, countChar_append, hb1, hb2]
    decide

/-- Witness for C5: the amended zero-survivor theorem evaluated on a
concrete all-excluded input. -/
theorem all_excluded_run_shape_witness :
    (∀ r ∈ [hashRow], wellFormed r ∧ excluded r = true) ∧
    (csv2c "devices.csv" [hashRow] = (headerText "devices.csv" ++ footerText, none)
      ∧ (countChar '\x7b' "devices.csv" = 0 → countChar '\x7d' "devices.csv" = 0 →
          braceBalanced (headerText "devices.csv" ++ footerText) = false)) :=
  ⟨by decide, all_excluded_run_shape "devices.csv" [hashRow] (by decide)⟩

/-- Counterexample to C5 as stated: the output for an empty input has
one opening and two closing braces, so it is not a syntactically
complete document. -/
theorem zero_rows_brace_imbalance :
    countChar '\x7b' (csv2c "devices.csv" []).1 = 1
    ∧ countChar '\x7d' (csv2c "devices.csv" []).1 = 2
    ∧ braceBalanced (csv2c "devices.csv" []).1 = false := by
  decide

/-- C6 (confirmed).  For every non-excluded well-formed row: when field
22 is empty the record block has no leading comment line and starts
directly with the name line after the opener; when field 22 is
non-empty the block holds exactly one leading comment line carrying
that field text, placed before the name line. -/
theorem comment_line_presence (out : String) (i : Nat) (row : Row)
    (hw : wellFormed row) (hx : excluded row = false) :
    (row.getD 22 "" = "" →
      processRow out i row =
        .ok (out ++ opener i ++ (nameLine row ++ dataPart row ++ "\t\x7d"), i + 1))
    ∧ (row.getD 22 "" ≠ "" →
      processRow out i row =
        .ok (out ++ opener i ++
          ("\t\t// " ++ row.getD 22 "" ++ "\n" ++ (nameLine row ++ dataPart row ++ "\t\x7d")),
          i + 1)) := by
  have he := processRow_emit out i row hw hx
  constructor
  · intro h22
    have hc : commentPart row = "" := by
      unfold commentPart
      rw [h22]
      simp
    rw [he]
    simp only [rowBody, hc, String.empty_append, String.append_assoc]
  · intro h22
    have hc : commentPart row = "\t\t// " ++ row.getD 22 "" ++ "\n" := by
      unfold commentPart
      rw [if_pos h22]
    rw [he]
    simp only [rowBody, hc, String.append_assoc]

/-- Witness for C6: the comment-line theorem evaluated on two concrete
rows, one with an empty and one with a non-empty field 22. -/
theorem comment_line_presence_witness :
    wellFormed crowNC ∧ excluded crowNC = false ∧
    (crowNC.getD 22 "" = "" →
      processRow "" 0 crowNC =
        .ok ("" ++ opener 0 ++ (nameLine crowNC ++ dataPart crowNC ++ "\t\x7d"), 0 + 1)) ∧
    (crow.getD 22 "" ≠ "" →
      processRow "" 0 crow =
        .ok ("" ++ opener 0 ++
          ("\t\t// " ++ crow.getD 22 "" ++ "\n" ++ (nameLine crow ++ dataPart crow ++ "\t\x7d")),
          0 + 1)) :=
  ⟨by decide, by decide,
    (comment_line_presence "" 0 crowNC (by decide) (by decide)).1,
    (comment_line_presence "" 0 crow (by decide) (by decide)).2⟩

/-- C7 (amended).  A non-excluded row with a non-empty first field and
fewer than 23 fields aborts the run with an IndexError raised at the
field-22 access; the opener of its record block is written before the
abort, and no later row is processed. -/
theorem short_row_abort (out : String) (i : Nat) (row : Row) (rest : List Row)
    (hlen : row.length < 23) (hne : firstField row ≠ "") (hx : excluded row = false) :
    processRows out i (row :: rest) = .error (out ++ opener i, PyErr.indexError) := by
  cases row with
  | nil => exact absurd rfl hne
  | cons f0 rest2 =>
    have h21 : rest2.length ≤ 21 := by
      simp only [List.length_cons] at hlen
      omega
    obtain ⟨cs⟩ := f0
    cases cs with
    | nil => exact absurd rfl hne
    | cons c cs2 =>
      have hc : ¬ c = '#' := by simpa [excluded, firstField] using hx
      simp [processRows, processRow, hc, List.getElem?_eq_none h21, opener]

/-- Witness for C7: the abort theorem evaluated on the concrete
two-field row `shortRow`. -/
theorem short_row_abort_witness :
    shortRow.length < 23 ∧ firstField shortRow ≠ "" ∧ excluded shortRow = false ∧
    processRows "" 0 [shortRow] = .error ("" ++ opener 0, PyErr.indexError) :=
  ⟨by decide, by decide, by decide,
    short_row_abort "" 0 shortRow [] (by decide) (by decide) (by decide)⟩

/-- Counterexample to C7 as stated: the one-field excluded row
"#skip" has fewer than 23 fields, yet the program does not abort — the
row is skipped and the run completes normally. -/
theorem excluded_short_row_skipped :
    ([("#skip" : String)] : Row).length < 23
    ∧ csv2c "devices.csv" [[("#skip" : String)]] =
        (headerText "devices.csv" ++ footerText, none) := by
  exact ⟨by decide, rfl⟩

/-- C8 (amended).  The argument parser does not enforce the required
options.  A missing output option aborts with a TypeError at the open
call, before any file is opened; a missing input option aborts with a
TypeError while building the banner, but only after the output file has
already been opened and truncated. -/
theorem missing_option_runs (inPath outPath : String) (rows : List Row) :
    csv2cMain (some inPath) none rows = ⟨false, "", some PyErr.typeError⟩
    ∧ csv2cMain none (some outPath) rows = ⟨true, "", some PyErr.typeError⟩ :=
  ⟨rfl, rfl⟩

/-- Counterexample to C8 as stated: with the input option missing and a
concrete output path, the output file is opened (and hence truncated)
before the run aborts, and the abort is a TypeError rather than an
argument-parsing error. -/
theorem missing_infile_output_truncated :
    (csv2cMain none (some "devices.c") []).outOpened = true
    ∧ (csv2cMain none (some "devices.c") []).error = some PyErr.typeError :=
  ⟨rfl, rfl⟩

/-- C9 (confirmed).  The generated text is a deterministic function of
the input path and the parsed rows; since the output file is opened in
truncating write mode, a second run over the result of a first run
produces a byte-identical file. -/
theorem rerun_byte_identical (infile : String) (rows : List Row) (prev : String) :
    runTool infile rows (runTool infile rows prev) = runTool infile rows prev := rfl

/-- C10 (confirmed).  A row with no fields (a blank input line) or an
empty first field aborts the run with an IndexError raised by the
exclusion test itself, before anything is written for that row and
without processing any later row. -/
theorem empty_first_field_abort (out : String) (i : Nat) (row : Row) (rest : List Row)
    (h : row.get? 0 = none ∨ row.get? 0 = some "") :
    processRows out i (row :: rest) = .error (out, PyErr.indexError) := by
  have h0 : row[0]? = none ∨ row[0]? = some "" := by
    simpa [List.get?_eq_getElem?] using h
  rcases h0 with h0 | h0
  · simp [processRows, processRow, List.get?_eq_getElem?, h0]
  · simp [processRows, processRow, List.get?_eq_getElem?, h0]

/-- Witness for C10: the exclusion-test abort theorem evaluated on the
concrete zero-field row. -/
theorem empty_first_field_abort_witness :
    (([] : Row).get? 0 = none ∨ ([] : Row).get? 0 = some "") ∧
    processRows "" 0 [([] : Row)] = .error ("", PyErr.indexError) :=
  ⟨Or.inl rfl, empty_first_field_abort "" 0 [] [] (Or.inl rfl)⟩

end Csv2c
